import Mathlib

/-!
Shallow embedding of `src/hooks/useEstablishments.ts`: an in-memory cache of
hotel ("establishment") records with gateway-backed create/update/delete
operations, a realtime-refreshed fetch, and pure derived views (search,
aggregate statistics, occupancy reconciliation).

Every asynchronous gateway call of the source is modelled by passing the
gateway's response as an explicit input; each operation becomes a pure
function from (state, inputs) to (return value, new state, the list of
gateway calls it performed, the notifications it emitted).
-/

namespace UseEstablishments

/-- Modelled from the spec: the `Hotel` record's status domain.  The `Hotel`
type lives in `src/lib/supabase.ts`, which is not part of the sources; the
spec fixes status ∈ {ACTIVE, INACTIVE}, matching the `'ACTIF' | 'INACTIF'`
literal union of `EstablishmentFormData` in the source. -/
inductive Statut
  | ACTIF
  | INACTIF
deriving DecidableEq, Repr

/-- The string representation of a status, as stored in the database rows
and compared against by `searchEstablishments` / `getEstablishmentStats`. -/
def statutStr : Statut → String
  | .ACTIF => "ACTIF"
  | .INACTIF => "INACTIF"

/-- Modelled from the spec: the `Hotel` record (`src/lib/supabase.ts` is not
under the sources).  Fields are those of `EstablishmentFormData` plus the
store-assigned `id` and the three derived occupancy fields, which the code
reads with a `|| 0` null-guard, hence `Option`.  Numbers are embedded as
`ℤ`/`ℚ`.  The opaque `horaires` blob is an uninspected `Option String`. -/
structure Hotel where
  id : ℤ
  nom : String
  adresse : String
  ville : String
  code_postal : String
  telephone : Option String := none
  email : Option String := none
  gestionnaire : Option String := none
  statut : Statut
  siret : Option String := none
  tva_intracommunautaire : Option String := none
  directeur : Option String := none
  telephone_directeur : Option String := none
  email_directeur : Option String := none
  capacite : Option ℤ := none
  categories : Option (List String) := none
  services : Option (List String) := none
  horaires : Option String := none
  chambres_total : Option ℤ := none
  chambres_occupees : Option ℤ := none
  taux_occupation : Option ℚ := none
deriving DecidableEq, Repr

/-- `EstablishmentFormData` (lines 8–26 of the source): the create-form
payload, which excludes `id` and the occupancy fields. -/
structure EstablishmentFormData where
  nom : String
  adresse : String
  ville : String
  code_postal : String
  telephone : Option String := none
  email : Option String := none
  gestionnaire : Option String := none
  statut : Statut
  siret : Option String := none
  tva_intracommunautaire : Option String := none
  directeur : Option String := none
  telephone_directeur : Option String := none
  email_directeur : Option String := none
  capacite : Option ℤ := none
  categories : Option (List String) := none
  services : Option (List String) := none
  horaires : Option String := none
deriving DecidableEq, Repr

/-- `Partial<EstablishmentFormData>` as used by `updateEstablishment`: any
subset of fields may be supplied.  `updateEstablishmentStats` additionally
supplies the three occupancy fields, so they are included here (the spec:
"any subset of fields, including occupancy fields, may be supplied"). -/
structure FormDataPatch where
  nom : Option String := none
  adresse : Option String := none
  ville : Option String := none
  code_postal : Option String := none
  telephone : Option String := none
  email : Option String := none
  gestionnaire : Option String := none
  statut : Option Statut := none
  siret : Option String := none
  tva_intracommunautaire : Option String := none
  directeur : Option String := none
  telephone_directeur : Option String := none
  email_directeur : Option String := none
  capacite : Option ℤ := none
  categories : Option (List String) := none
  services : Option (List String) := none
  horaires : Option String := none
  chambres_total : Option ℤ := none
  chambres_occupees : Option ℤ := none
  taux_occupation : Option ℚ := none
deriving DecidableEq, Repr

/-- The row shape returned by the reservations guard query
(`select('id')` on `reservations`). -/
structure Reservation where
  id : ℤ
deriving DecidableEq, Repr

/-- The row shape returned by the rooms query of `updateEstablishmentStats`
(`select('id, statut')` on `rooms`). -/
structure Room where
  id : ℤ
  statut : String
deriving DecidableEq, Repr

/-- The insert payload of `createEstablishment`: the spread form data plus
the three occupancy fields it sets (lines 85–90 of the source).  The store
assigns the `id`, so the payload has none. -/
structure InsertRow where
  form : EstablishmentFormData
  chambres_total : ℤ
  chambres_occupees : ℤ
  taux_occupation : ℚ
deriving DecidableEq, Repr

/-- A gateway call, recorded in each operation's trace so that claims about
which remote calls were (not) made are statable. -/
inductive GwCall
  | listHotels
  | getHotel (id : ℤ)
  | insertHotel (row : InsertRow)
  | updateHotel (id : ℤ) (patch : FormDataPatch)
  | deleteHotel (id : ℤ)
  | listReservations (hotelId : ℤ)
  | listRooms (hotelId : ℤ)
deriving DecidableEq, Repr

/-- Severity of a user notification (`addNotification`). -/
inductive Severity
  | success
  | warning
deriving DecidableEq, Repr

/-- A `(severity, message)` pair passed to the notification sink. -/
abbrev Notif := Severity × String

/-- The hook's reactive state: the cache plus the loading flag and the
error message (`useState` triple, lines 29–31 of the source). -/
structure HookState where
  establishments : List Hotel
  loading : Bool
  error : Option String
deriving DecidableEq, Repr

/-- The state on mount: empty cache, `loading` initially `true`, no error. -/
def initState : HookState := { establishments := [], loading := true, error := none }

/-- The observable outcome of one operation: its return value, the state
after it, the gateway calls it performed in order, and the notifications
it emitted in order. -/
structure OpOut (α : Type) where
  ret : α
  state : HookState
  calls : List GwCall
  notifs : List Notif
deriving DecidableEq, Repr

/-- `fetchEstablishments` (lines 35–57): lists all hotels ordered by name.
On success replaces the whole cache with `data || []` and clears the error;
on failure leaves the cache, records the error message and emits a warning.
`loading` is `true` for the call's duration and `false` afterwards
(`finally`); the post-state carries the final value. -/
def fetchEstablishments (s : HookState)
    (resp : Except String (Option (List Hotel))) : OpOut Unit :=
  match resp with
  | .ok data =>
      { ret := ()
        state := { establishments := data.getD [], loading := false, error := none }
        calls := [.listHotels]
        notifs := [] }
  | .error e =>
      { ret := ()
        state := { s with loading := false, error := some e }
        calls := [.listHotels]
        notifs := [(.warning, "Erreur lors de la récupération des établissements")] }

/-- `fetchEstablishmentById` (lines 60–78): point lookup bypassing the
cache; returns the record, or `none` after a warning notification on any
error.  Never touches the state. -/
def fetchEstablishmentById (s : HookState) (id : ℤ)
    (resp : Except String Hotel) : OpOut (Option Hotel) :=
  match resp with
  | .ok data =>
      { ret := some data, state := s, calls := [.getHotel id], notifs := [] }
  | .error _ =>
      { ret := none, state := s, calls := [.getHotel id]
        notifs := [(.warning, "Erreur lors de la récupération de l\x27établissement")] }

/-- The row `createEstablishment` inserts: `{ ...formData, chambres_total: 0,
chambres_occupees: 0, taux_occupation: 0 }` (lines 85–90). -/
def insertRow (formData : EstablishmentFormData) : InsertRow :=
  { form := formData, chambres_total := 0, chambres_occupees := 0, taux_occupation := 0 }

/-- `createEstablishment` (lines 81–109): inserts the form data with zeroed
occupancy fields; on success appends the returned record to the cache and
emits a success notification; on failure leaves the state untouched, emits
a warning and returns `none`. -/
def createEstablishment (s : HookState) (formData : EstablishmentFormData)
    (resp : Except String Hotel) : OpOut (Option Hotel) :=
  match resp with
  | .ok data =>
      { ret := some data
        state := { s with establishments := s.establishments ++ [data] }
        calls := [.insertHotel (insertRow formData)]
        notifs := [(.success, "Établissement créé avec succès")] }
  | .error _ =>
      { ret := none, state := s
        calls := [.insertHotel (insertRow formData)]
        notifs := [(.warning, "Erreur lors de la création de l\x27établissement")] }

/-- `updateEstablishment` (lines 112–138): on success replaces each cache
entry whose id matches with the returned record (`prev.map`); on failure
leaves the state untouched, emits a warning and returns `none`. -/
def updateEstablishment (s : HookState) (id : ℤ) (formData : FormDataPatch)
    (resp : Except String Hotel) : OpOut (Option Hotel) :=
  match resp with
  | .ok data =>
      { ret := some data
        state := { s with establishments :=
          s.establishments.map (fun est => if est.id = id then data else est) }
        calls := [.updateHotel id formData]
        notifs := [(.success, "Établissement mis à jour avec succès")] }
  | .error _ =>
      { ret := none, state := s
        calls := [.updateHotel id formData]
        notifs := [(.warning, "Erreur lors de la mise à jour de l\x27établissement")] }

/-- `deleteEstablishment` (lines 141–179): first queries reservations for
this hotel with status in {CONFIRMEE, EN_COURS}; if the query errs, or any
such reservation exists, returns `false` without calling the gateway
delete (warning notification in both cases).  Otherwise performs the
delete; on success removes the id from the cache. The JS guard is
`reservations && reservations.length > 0`, so a `null` result passes. -/
def deleteEstablishment (s : HookState) (id : ℤ)
    (resResp : Except String (Option (List Reservation)))
    (delResp : Except String Unit) : OpOut Bool :=
  match resResp with
  | .error _ =>
      { ret := false, state := s, calls := [.listReservations id]
        notifs := [(.warning, "Erreur lors de la suppression de l\x27établissement")] }
  | .ok reservations =>
      if (reservations.getD []).length > 0 then
        { ret := false, state := s, calls := [.listReservations id]
          notifs := [(.warning,
            "Impossible de supprimer un établissement avec des réservations actives")] }
      else
        match delResp with
        | .error _ =>
            { ret := false, state := s
              calls := [.listReservations id, .deleteHotel id]
              notifs := [(.warning, "Erreur lors de la suppression de l\x27établissement")] }
        | .ok _ =>
            { ret := true
              state := { s with establishments :=
                s.establishments.filter (fun est => est.id ≠ id) }
              calls := [.listReservations id, .deleteHotel id]
              notifs := [(.success, "Établissement supprimé avec succès")] }

/-- JavaScript `toLowerCase`, character by character. -/
def jsToLower (str : String) : String := ⟨str.data.map Char.toLower⟩

/-- JavaScript `String.prototype.includes`: substring containment. -/
def strContains (str sub : String) : Bool := decide (sub.data <:+: str.data)

/-- The per-entry text predicate of `searchEstablishments` (lines 187–192):
name, city or address contains the lowercased term, or the manager name is
present (JS-truthy, hence non-empty) and contains it. -/
def matchesQuery (searchTerm : String) (est : Hotel) : Bool :=
  strContains (jsToLower est.nom) searchTerm ||
  strContains (jsToLower est.ville) searchTerm ||
  strContains (jsToLower est.adresse) searchTerm ||
  (match est.gestionnaire with
   | some g => g ≠ "" && strContains (jsToLower g) searchTerm
   | none => false)

/-- `searchEstablishments` (lines 182–200): pure view over the cache.  A
JS-truthy (non-empty) query applies the text filter; a JS-truthy status
other than `"all"` then applies the exact-status filter. -/
def searchEstablishments (establishments : List Hotel)
    (query : String) (status : Option String) : List Hotel :=
  let filtered :=
    if query ≠ "" then
      establishments.filter (matchesQuery (jsToLower query))
    else establishments
  match status with
  | some st =>
      if st ≠ "" ∧ st ≠ "all" then
        filtered.filter (fun est => decide (statutStr est.statut = st))
      else filtered
  | none => filtered

/-- JavaScript `Math.round`: half-up rounding, `⌊x + 1/2⌋`. -/
def jsRound (q : ℚ) : ℤ := ⌊q + 1 / 2⌋

/-- `Math.round(q * 100) / 100`: rounding to two-decimal precision. -/
def round2 (q : ℚ) : ℚ := (jsRound (q * 100) : ℚ) / 100

/-- The result record of `getEstablishmentStats`. -/
structure EstablishmentStats where
  total : ℕ
  actifs : ℕ
  inactifs : ℕ
  totalChambres : ℤ
  tauxOccupationMoyen : ℚ
deriving DecidableEq, Repr

/-- `getEstablishmentStats` (lines 203–219): pure aggregate view.  Counts,
sum of `chambres_total || 0`, and the mean of `taux_occupation || 0`
(0 for an empty cache) rounded to two decimals. -/
def getEstablishmentStats (establishments : List Hotel) : EstablishmentStats :=
  let total := establishments.length
  let actifs := (establishments.filter (fun est => est.statut == Statut.ACTIF)).length
  let inactifs := (establishments.filter (fun est => est.statut == Statut.INACTIF)).length
  let totalChambres :=
    establishments.foldl (fun sum est => sum + est.chambres_total.getD 0) 0
  let tauxOccupationMoyen : ℚ :=
    if total > 0 then
      establishments.foldl (fun sum est => sum + est.taux_occupation.getD 0) 0 / total
    else 0
  { total := total, actifs := actifs, inactifs := inactifs
    totalChambres := totalChambres
    tauxOccupationMoyen := round2 tauxOccupationMoyen }

/-- The patch `updateEstablishmentStats` computes from the rooms rows
(lines 234–243): room count, occupied count, and the rounded occupancy
rate — exactly these three fields. -/
def statsPatch (rooms : Option (List Room)) : FormDataPatch :=
  let chambres_total : ℤ := match rooms with | some r => r.length | none => 0
  let chambres_occupees : ℤ :=
    match rooms with
    | some r => (r.filter (fun room => room.statut == "occupee")).length
    | none => 0
  let taux_occupation : ℚ :=
    if chambres_total > 0 then (chambres_occupees : ℚ) / (chambres_total : ℚ) * 100 else 0
  { chambres_total := some chambres_total
    chambres_occupees := some chambres_occupees
    taux_occupation := some (round2 taux_occupation) }

/-- `updateEstablishmentStats` (lines 222–248), the stats reconciler: reads
the rooms of one hotel, computes the occupancy patch and delegates to
`updateEstablishment`.  A rooms-read failure is caught with only a
`console.error` — no notification — and nothing is ever returned or
thrown to the caller. -/
def updateEstablishmentStats (s : HookState) (id : ℤ)
    (roomsResp : Except String (Option (List Room)))
    (updResp : Except String Hotel) : OpOut Unit :=
  match roomsResp with
  | .error _ =>
      { ret := (), state := s, calls := [.listRooms id], notifs := [] }
  | .ok rooms =>
      let upd := updateEstablishment s id (statsPatch rooms) updResp
      { ret := (), state := upd.state
        calls := .listRooms id :: upd.calls
        notifs := upd.notifs }

/-- One step of the hook's mutation/refresh machinery, with the gateway
responses it consumed as data. -/
inductive Op
  | refresh (resp : Except String (Option (List Hotel)))
  | create (fd : EstablishmentFormData) (resp : Except String Hotel)
  | update (id : ℤ) (patch : FormDataPatch) (resp : Except String Hotel)
  | del (id : ℤ) (resResp : Except String (Option (List Reservation)))
        (delResp : Except String Unit)
deriving Repr

/-- The state transition of one operation. -/
def applyOp (s : HookState) : Op → HookState
  | .refresh resp => (fetchEstablishments s resp).state
  | .create fd resp => (createEstablishment s fd resp).state
  | .update id patch resp => (updateEstablishment s id patch resp).state
  | .del id resResp delResp => (deleteEstablishment s id resResp delResp).state

/-- Run a sequence of operations from a state. -/
def runOps (s : HookState) (ops : List Op) : HookState := ops.foldl applyOp s

/-- The ids of the cached entries, in cache order. -/
def cacheIds (s : HookState) : List ℤ := s.establishments.map Hotel.id

/-! ### Spec-side predicates for the search claim (stated from the claim's
words, to be compared with `searchEstablishments`) -/

/-- The claim's text criterion: the entry's name, city, address, or
manager-name-if-present case-insensitively contains the query; every entry
matches when the query is empty. -/
def specMatchText (q : String) (est : Hotel) : Bool :=
  decide (q = "") ||
  strContains (jsToLower est.nom) (jsToLower q) ||
  strContains (jsToLower est.ville) (jsToLower q) ||
  strContains (jsToLower est.adresse) (jsToLower q) ||
  (match est.gestionnaire with
   | some g => strContains (jsToLower g) (jsToLower q)
   | none => false)

/-- The claim's status criterion: every entry matches when the filter is
absent or the sentinel "all"; otherwise the entry's status must equal it. -/
def specMatchStatus (status : Option String) (est : Hotel) : Bool :=
  decide (status = none) || decide (status = some "all") ||
  decide (status = some (statutStr est.statut))

/-- The search result the claim describes: entries meeting both criteria
(logical AND), in cache order. -/
def specSearch (es : List Hotel) (q : String) (status : Option String) : List Hotel :=
  es.filter (fun est => specMatchText q est && specMatchStatus status est)

/-- The amended status criterion: the empty string is a no-filter sentinel
too, because `""` is JS-falsy in the source's `if (status && ...)`. -/
def specMatchStatusAmended (status : Option String) (est : Hotel) : Bool :=
  decide (status = none) || decide (status = some "") ||
  decide (status = some "all") || decide (status = some (statutStr est.statut))

/-- The amended search result. -/
def specSearchAmended (es : List Hotel) (q : String) (status : Option String) :
    List Hotel :=
  es.filter (fun est => specMatchText q est && specMatchStatusAmended status est)

/-! ### Gateway-response assumptions for the id-uniqueness claim -/

/-- The response-soundness assumptions under which id uniqueness is
preserved: a refreshed list is id-duplicate-free, a successful create
returns an id not already cached, and a successful update returns a record
carrying the requested id.  Failed calls need no assumption. -/
def opRespOk (s : HookState) : Op → Prop
  | .refresh (.ok data) => ((data.getD []).map Hotel.id).Nodup
  | .refresh (.error _) => True
  | .create _ (.ok h) => h.id ∉ cacheIds s
  | .create _ (.error _) => True
  | .update id _ (.ok h) => h.id = id
  | .update _ _ (.error _) => True
  | .del _ _ _ => True

/-- Every response along the run satisfies `opRespOk` at the state where
it is consumed. -/
def goodRun : HookState → List Op → Prop
  | _, [] => True
  | s, op :: ops => opRespOk s op ∧ goodRun (applyOp s op) ops

/-! ### Sample data for witnesses and counterexamples -/

/-- A sample cached hotel. -/
def hA : Hotel :=
  { id := 1, nom := "Alpha", adresse := "1 rue des Lilas", ville := "Paris"
    code_postal := "75001", statut := .ACTIF }

/-- A second sample cached hotel. -/
def hB : Hotel :=
  { id := 2, nom := "Beta", adresse := "2 avenue du Port", ville := "Lyon"
    code_postal := "69001", statut := .INACTIF }

/-- The record returned by a sample successful update of `hA`. -/
def hA2 : Hotel :=
  { id := 1, nom := "Alpha Renove", adresse := "1 rue des Lilas", ville := "Paris"
    code_postal := "75001", statut := .ACTIF }

/-- A state whose cache holds `hA` and `hB`. -/
def sAB : HookState := { establishments := [hA, hB], loading := false, error := none }

/-- A sample create form. -/
def fd0 : EstablishmentFormData :=
  { nom := "Gamma", adresse := "3 place Neuve", ville := "Nice"
    code_postal := "06000", statut := .ACTIF }

/-- An empty update patch. -/
def p0 : FormDataPatch := {}

/-- Four rooms of which three are occupied (the spec's P6 example). -/
def rooms4 : List Room :=
  [{ id := 1, statut := "occupee" }, { id := 2, statut := "occupee" }
   , { id := 3, statut := "occupee" }, { id := 4, statut := "libre" }]

/-- Sample hotels for the stats-aggregation example: room totals
[10, 20, missing] and occupancy rates [50, 25, missing]. -/
def eS1 : Hotel :=
  { id := 1, nom := "Un", adresse := "a", ville := "Paris", code_postal := "75001"
    statut := .ACTIF, chambres_total := some 10, taux_occupation := some 50 }

/-- Second stats-example hotel. -/
def eS2 : Hotel :=
  { id := 2, nom := "Deux", adresse := "b", ville := "Lyon", code_postal := "69001"
    statut := .ACTIF, chambres_total := some 20, taux_occupation := some 25 }

/-- Third stats-example hotel, with the occupancy fields absent. -/
def eS3 : Hotel :=
  { id := 3, nom := "Trois", adresse := "c", ville := "Nice", code_postal := "06000"
    statut := .INACTIF }

end UseEstablishments

namespace UseEstablishments

/-! ### Helper lemmas -/

theorem round2_zero : round2 0 = 0 := by norm_num [round2, jsRound]

theorem foldl_add_from {α M : Type} [AddCommMonoid M] (g : α → M) (l : List α) (init : M) :
    l.foldl (fun acc a => acc + g a) init = init + (l.map g).sum := by
  induction l generalizing init with
  | nil => simp
  | cons a t ih => simp [List.foldl_cons, ih, add_assoc]

theorem foldl_add_eq_sum {α M : Type} [AddCommMonoid M] (g : α → M) (l : List α) :
    l.foldl (fun acc a => acc + g a) 0 = (l.map g).sum := by
  simp [foldl_add_from]

theorem filter_statut_partition (es : List Hotel) :
    (es.filter (fun est => est.statut == Statut.ACTIF)).length
      + (es.filter (fun est => est.statut == Statut.INACTIF)).length = es.length := by
  induction es with
  | nil => rfl
  | cons h t ih =>
    cases hst : h.statut <;> simp [List.filter_cons, hst] <;> omega

theorem statsPatch_some (rooms : List Room) :
    statsPatch (some rooms) =
      { chambres_total := some (rooms.length : ℤ)
        chambres_occupees :=
          some ((rooms.filter (fun room => room.statut == "occupee")).length : ℤ)
        taux_occupation :=
          some (if 0 < rooms.length then
            round2 (((rooms.filter (fun room => room.statut == "occupee")).length : ℚ)
              / (rooms.length : ℚ) * 100)
          else 0) } := by
  rcases Nat.eq_zero_or_pos rooms.length with h | h
  · have : rooms = [] := List.length_eq_zero.mp h
    subst this
    simp [statsPatch, round2_zero]
  · have h' : (0 : ℤ) < (rooms.length : ℤ) := by exact_mod_cast h
    simp [statsPatch, h, h', not_lt.mpr, Int.cast_natCast]

/-! ### Claim theorems -/

/-- Claim C2: if the reservations guard query returns at least one active
(CONFIRMEE/EN_COURS) reservation for the id, `deleteEstablishment` returns
`false`, performs no gateway delete call, leaves the state (hence the
cache) unchanged, and emits exactly one warning notification. -/
theorem claim_C2 (s : HookState) (id : ℤ) (l : List Reservation)
    (delResp : Except String Unit) (hl : l ≠ []) :
    (deleteEstablishment s id (.ok (some l)) delResp).ret = false ∧
    (deleteEstablishment s id (.ok (some l)) delResp).state = s ∧
    GwCall.deleteHotel id ∉ (deleteEstablishment s id (.ok (some l)) delResp).calls ∧
    (deleteEstablishment s id (.ok (some l)) delResp).notifs =
      [(Severity.warning,
        "Impossible de supprimer un établissement avec des réservations actives")] := by
  have hpos : 0 < l.length := List.length_pos.mpr hl
  simp [deleteEstablishment, hpos]

/-- Witness for C2: deleting hotel 1 while one CONFIRMEE reservation exists. -/
theorem claim_C2_witness :
    (deleteEstablishment sAB 1 (.ok (some [{ id := 9 }])) (.ok ())).ret = false ∧
    (deleteEstablishment sAB 1 (.ok (some [{ id := 9 }])) (.ok ())).state = sAB ∧
    GwCall.deleteHotel 1 ∉ (deleteEstablishment sAB 1 (.ok (some [{ id := 9 }])) (.ok ())).calls ∧
    (deleteEstablishment sAB 1 (.ok (some [{ id := 9 }])) (.ok ())).notifs =
      [(Severity.warning,
        "Impossible de supprimer un établissement avec des réservations actives")] :=
  claim_C2 sAB 1 [{ id := 9 }] (.ok ()) (by decide)

/-- Claim C6: a failing gateway update call makes `updateEstablishment`
return `none` and leaves the whole state — in particular the cache
snapshot — exactly as it was. -/
theorem claim_C6 (s : HookState) (id : ℤ) (patch : FormDataPatch) (e : String) :
    (updateEstablishment s id patch (.error e)).ret = none ∧
    (updateEstablishment s id patch (.error e)).state = s := by
  simp [updateEstablishment]

/-- Claim C7: the row `createEstablishment` posts for insertion carries the
form data with `chambres_total`, `chambres_occupees` and `taux_occupation`
all set to 0, for every form data; on success the gateway's record is
returned and appended to the cache. -/
theorem claim_C7 (formData : EstablishmentFormData) (s : HookState) (h : Hotel) :
    (insertRow formData).chambres_total = 0 ∧
    (insertRow formData).chambres_occupees = 0 ∧
    (insertRow formData).taux_occupation = 0 ∧
    (createEstablishment s formData (.ok h)).calls = [.insertHotel (insertRow formData)] ∧
    (createEstablishment s formData (.ok h)).ret = some h ∧
    (createEstablishment s formData (.ok h)).state.establishments =
      s.establishments ++ [h] := by
  simp [insertRow, createEstablishment]

/-- Claim C10: the ACTIVE count plus the INACTIVE count equals the total
count, since every establishment's status is one of the two. -/
theorem claim_C10 (es : List Hotel) :
    (getEstablishmentStats es).actifs + (getEstablishmentStats es).inactifs =
      (getEstablishmentStats es).total := by
  simpa [getEstablishmentStats] using filter_statut_partition es

/-- Claim C4: `getEstablishmentStats` returns the entry count, the ACTIF
and INACTIF counts, the sum of `chambres_total` (missing = 0) and the
two-decimal-rounded mean of `taux_occupation` (missing = 0; 0 when the
cache is empty); on the spec's example of room totals [10, 20, missing]
and rates [50, 25, missing] it yields total=3, totalChambres=30,
tauxOccupationMoyen=25. -/
theorem claim_C4 (es : List Hotel) :
    (getEstablishmentStats es).total = es.length ∧
    (getEstablishmentStats es).actifs = es.countP (fun est => est.statut == Statut.ACTIF) ∧
    (getEstablishmentStats es).inactifs = es.countP (fun est => est.statut == Statut.INACTIF) ∧
    (getEstablishmentStats es).totalChambres =
      (es.map (fun est => est.chambres_total.getD 0)).sum ∧
    (getEstablishmentStats es).tauxOccupationMoyen =
      round2 (if es = [] then 0
        else (es.map (fun est => est.taux_occupation.getD 0)).sum / (es.length : ℚ)) ∧
    getEstablishmentStats [eS1, eS2, eS3] =
      { total := 3, actifs := 2, inactifs := 1, totalChambres := 30
        tauxOccupationMoyen := 25 } := by
  refine ⟨rfl, ?_, ?_, ?_, ?_, ?_⟩
  · simp [getEstablishmentStats, List.countP_eq_length_filter]
  · simp [getEstablishmentStats, List.countP_eq_length_filter]
  · simp [getEstablishmentStats, foldl_add_eq_sum]
  · rcases eq_or_ne es [] with hes | hes
    · subst hes; simp [getEstablishmentStats, round2_zero]
    · have : 0 < es.length := List.length_pos.mpr hes
      simp [getEstablishmentStats, hes, this, foldl_add_eq_sum]
  · simp [getEstablishmentStats, eS1, eS2, eS3, foldl_add_eq_sum]
    norm_num [round2, jsRound]

/-- Claim C3: on a successful rooms read, `updateEstablishmentStats` reads
the rooms of the id and issues one update carrying exactly
total = room count, occupied = count with statut "occupee", and
rate = round2(occupied/total × 100) when total > 0 and 0 otherwise; on the
spec's example of 4 rooms with 3 occupied the patch is total=4, occupied=3,
rate=75. -/
theorem claim_C3 (s : HookState) (id : ℤ) (rooms : List Room)
    (updResp : Except String Hotel) :
    (updateEstablishmentStats s id (.ok (some rooms)) updResp).calls =
      [GwCall.listRooms id,
       GwCall.updateHotel id
         { chambres_total := some (rooms.length : ℤ)
           chambres_occupees :=
             some ((rooms.filter (fun room => room.statut == "occupee")).length : ℤ)
           taux_occupation :=
             some (if 0 < rooms.length then
               round2 (((rooms.filter (fun room => room.statut == "occupee")).length : ℚ)
                 / (rooms.length : ℚ) * 100)
             else 0) }] ∧
    (updateEstablishmentStats initState 7 (.ok (some rooms4)) (.error "e")).calls =
      [GwCall.listRooms 7,
       GwCall.updateHotel 7
         { chambres_total := some 4, chambres_occupees := some 3
           taux_occupation := some 75 }] := by
  constructor
  · cases updResp <;> simp [updateEstablishmentStats, updateEstablishment, statsPatch_some]
  · simp [updateEstablishmentStats, updateEstablishment, statsPatch_some, rooms4]
    norm_num [round2, jsRound]

end UseEstablishments

namespace UseEstablishments

/-- Counterexample for C9: with a successful rooms read and a failing
nested update, `updateEstablishmentStats` does emit a notification — the
warning raised inside `updateEstablishment`'s catch block — contradicting
"no notification is emitted" for every failure during reconciliation. -/
theorem claim_C9_counterexample :
    (updateEstablishmentStats sAB 1 (.ok (some [])) (.error "boom")).notifs ≠ [] := by
  simp [updateEstablishmentStats, updateEstablishment]

/-- Claim C9 as amended: a failure at the rooms read step is swallowed
with only a diagnostic log — no notification, state unchanged; a failure
of the nested update emits that operation's warning notification (state
still unchanged); in either case nothing is surfaced to the caller (the
operation returns unit). -/
theorem claim_C9 (s : HookState) (id : ℤ) (e : String)
    (updResp : Except String Hotel) (rooms : Option (List Room)) (e2 : String) :
    (updateEstablishmentStats s id (.error e) updResp).notifs = [] ∧
    (updateEstablishmentStats s id (.error e) updResp).state = s ∧
    (updateEstablishmentStats s id (.error e) updResp).ret = () ∧
    (updateEstablishmentStats s id (.ok rooms) (.error e2)).notifs =
      [(Severity.warning, "Erreur lors de la mise à jour de l\x27établissement")] ∧
    (updateEstablishmentStats s id (.ok rooms) (.error e2)).state = s ∧
    (updateEstablishmentStats s id (.ok rooms) (.error e2)).ret = () := by
  simp [updateEstablishmentStats, updateEstablishment]

/-- Claim C8: on a successful update, the cache keeps its length; at every
position whose entry's id matches, the entry becomes the returned record;
at every position whose entry's id differs, the entry is unchanged; and if
no cached entry has the id, the cache is left entirely unchanged.  The
returned value is the gateway's record. -/
theorem claim_C8 (s : HookState) (id : ℤ) (patch : FormDataPatch) (h : Hotel) :
    (updateEstablishment s id patch (.ok h)).ret = some h ∧
    (updateEstablishment s id patch (.ok h)).state.establishments.length =
      s.establishments.length ∧
    (∀ i : ℕ, ∀ est : Hotel, s.establishments[i]? = some est → est.id = id →
      (updateEstablishment s id patch (.ok h)).state.establishments[i]? = some h) ∧
    (∀ i : ℕ, ∀ est : Hotel, s.establishments[i]? = some est → est.id ≠ id →
      (updateEstablishment s id patch (.ok h)).state.establishments[i]? = some est) ∧
    ((∀ est ∈ s.establishments, est.id ≠ id) →
      (updateEstablishment s id patch (.ok h)).state.establishments =
        s.establishments) := by
  refine ⟨rfl, ?_, ?_, ?_, ?_⟩
  · simp [updateEstablishment]
  · intro i est hget hid
    simp [updateEstablishment, List.getElem?_map, hget, hid]
  · intro i est hget hid
    simp [updateEstablishment, List.getElem?_map, hget, hid]
  · intro hall
    have hfix : ∀ est ∈ s.establishments,
        (if est.id = id then h else est) = est := by
      intro est hmem
      simp [hall est hmem]
    calc (updateEstablishment s id patch (.ok h)).state.establishments
        = s.establishments.map (fun est => if est.id = id then h else est) := rfl
      _ = s.establishments.map (fun est => est) := List.map_congr_left hfix
      _ = s.establishments := List.map_id s.establishments

/-- Witness for C8: updating id 1 in the cache [hA, hB] replaces position
0 (id 1) with the returned record, keeps position 1; updating the absent
id 9 leaves the cache unchanged. -/
theorem claim_C8_witness :
    (updateEstablishment sAB 1 p0 (.ok hA2)).state.establishments[0]? = some hA2 ∧
    (updateEstablishment sAB 1 p0 (.ok hA2)).state.establishments[1]? = some hB ∧
    (updateEstablishment sAB 9 p0 (.ok hA2)).state.establishments =
      sAB.establishments :=
  ⟨(claim_C8 sAB 1 p0 hA2).2.2.1 0 hA (by decide) (by decide),
   (claim_C8 sAB 1 p0 hA2).2.2.2.1 1 hB (by decide) (by decide),
   (claim_C8 sAB 9 p0 hA2).2.2.2.2 (by decide)⟩

end UseEstablishments

namespace UseEstablishments

theorem data_ne_nil_of_ne_empty : ∀ {q : String}, q ≠ "" → q.data ≠ []
  | ⟨[]⟩, hq => absurd rfl hq
  | ⟨c :: cs⟩, _ => by simp

theorem jsToLower_data (q : String) : (jsToLower q).data = q.data.map Char.toLower := rfl

theorem jsToLower_data_ne_nil {q : String} (hq : q ≠ "") : (jsToLower q).data ≠ [] := by
  simpa [jsToLower_data, List.map_eq_nil_iff] using data_ne_nil_of_ne_empty hq

theorem strContains_nil_of_ne (t : String) (ht : t.data ≠ []) :
    strContains "" t = false := by
  have hempty : ("" : String).data = [] := rfl
  simp [strContains, hempty, List.infix_nil, ht]

theorem matchesQuery_eq_specMatchText (q : String) (hq : q ≠ "") (est : Hotel) :
    matchesQuery (jsToLower q) est = specMatchText q est := by
  have hqd : (decide (q = "")) = false := by simp [hq]
  cases hg : est.gestionnaire with
  | none => simp [matchesQuery, specMatchText, hg, hqd]
  | some g =>
    rcases eq_or_ne g "" with rfl | hgne
    · have hc : strContains (jsToLower "") (jsToLower q) = false := by
        rw [show jsToLower "" = "" from rfl]
        exact strContains_nil_of_ne _ (jsToLower_data_ne_nil hq)
      simp [matchesQuery, specMatchText, hg, hqd, hc]
    · simp [matchesQuery, specMatchText, hg, hqd, hgne]

theorem filter_base (es : List Hotel) (q : String) (p : Hotel → Bool) :
    (if q ≠ "" then es.filter (matchesQuery (jsToLower q)) else es).filter p =
      es.filter (fun est => specMatchText q est && p est) := by
  rcases eq_or_ne q "" with rfl | hq
  · simp only [ne_eq, not_true_eq_false, if_false, ite_false, reduceIte]
    apply List.filter_congr
    intro est _
    simp [specMatchText]
  · rw [if_pos hq, List.filter_filter]
    apply List.filter_congr
    intro est _
    rw [matchesQuery_eq_specMatchText q hq est, Bool.and_comm]

theorem filter_base_id (es : List Hotel) (q : String) :
    (if q ≠ "" then es.filter (matchesQuery (jsToLower q)) else es) =
      es.filter (fun est => specMatchText q est) := by
  have h := filter_base es q (fun _ => true)
  simpa using h

/-- Counterexample for C1: with one ACTIF entry, the query `""` and the
status filter `""` (a JS-falsy but present filter), the source returns the
whole cache, while the claim's characterization — status must equal `""` —
returns nothing. -/
theorem claim_C1_counterexample :
    searchEstablishments [hA] "" (some "") ≠ specSearch [hA] "" (some "") ∧
    searchEstablishments [hA] "" (some "") = [hA] ∧
    specSearch [hA] "" (some "") = [] := by
  refine ⟨?_, ?_, ?_⟩ <;> decide

/-- Claim C1 as amended: `searchEstablishments` returns exactly the cached
entries whose name, city, address, or manager-name-if-present
case-insensitively contains the query (all of them when the query is
empty) and whose status equals the filter (all of them when the filter is
absent, empty, or the sentinel "all"); the two criteria compose with
logical AND and the result is a fresh filtered sequence, the cache list
itself being untouched by construction. -/
theorem claim_C1 (es : List Hotel) (q : String) (status : Option String) :
    searchEstablishments es q status = specSearchAmended es q status := by
  cases status with
  | none =>
    have hcode : searchEstablishments es q none =
        (if q ≠ "" then es.filter (matchesQuery (jsToLower q)) else es) := rfl
    rw [hcode, filter_base_id es q]
    unfold specSearchAmended
    apply List.filter_congr
    intro est _
    simp [specMatchStatusAmended]
  | some st =>
    by_cases h1 : st = ""
    · subst h1
      have hcode : searchEstablishments es q (some "") =
          (if q ≠ "" then es.filter (matchesQuery (jsToLower q)) else es) := by
        unfold searchEstablishments
        simp
      rw [hcode, filter_base_id es q]
      unfold specSearchAmended
      apply List.filter_congr
      intro est _
      simp [specMatchStatusAmended]
    · by_cases h2 : st = "all"
      · subst h2
        have hcode : searchEstablishments es q (some "all") =
            (if q ≠ "" then es.filter (matchesQuery (jsToLower q)) else es) := by
          unfold searchEstablishments
          simp
        rw [hcode, filter_base_id es q]
        unfold specSearchAmended
        apply List.filter_congr
        intro est _
        simp [specMatchStatusAmended]
      · have hcode : searchEstablishments es q (some st) =
            (if q ≠ "" then es.filter (matchesQuery (jsToLower q)) else es).filter
              (fun est => decide (statutStr est.statut = st)) := by
          unfold searchEstablishments
          simp [h1, h2]
        rw [hcode, filter_base es q (fun est => decide (statutStr est.statut = st))]
        unfold specSearchAmended
        apply List.filter_congr
        intro est _
        have hAm : specMatchStatusAmended (some st) est =
            decide (statutStr est.statut = st) := by
          simp [specMatchStatusAmended, h1, h2, eq_comm]
        rw [hAm]

end UseEstablishments

namespace UseEstablishments

theorem applyOp_nodup {s : HookState} {op : Op}
    (hs : (cacheIds s).Nodup) (hop : opRespOk s op) :
    (cacheIds (applyOp s op)).Nodup := by
  cases op with
  | refresh resp =>
    cases resp with
    | ok data => simpa [applyOp, fetchEstablishments, cacheIds] using hop
    | error e => simpa [applyOp, fetchEstablishments, cacheIds] using hs
  | create fd resp =>
    cases resp with
    | ok h =>
      have hmem : h.id ∉ cacheIds s := hop
      have hids : cacheIds (applyOp s (.create fd (.ok h))) = cacheIds s ++ [h.id] := by
        simp [applyOp, createEstablishment, cacheIds]
      rw [hids, List.nodup_append]
      exact ⟨hs, List.nodup_singleton _, by simpa [List.disjoint_singleton] using hmem⟩
    | error e => simpa [applyOp, createEstablishment, cacheIds] using hs
  | update id patch resp =>
    cases resp with
    | ok h =>
      have hid : h.id = id := hop
      have hids : cacheIds (applyOp s (.update id patch (.ok h))) = cacheIds s := by
        simp only [applyOp, updateEstablishment, cacheIds, List.map_map]
        apply List.map_congr_left
        intro est _
        by_cases hcase : est.id = id <;> simp [Function.comp, hcase, hid]
      rw [hids]
      exact hs
    | error e => simpa [applyOp, updateEstablishment, cacheIds] using hs
  | del id resResp delResp =>
    have hsub : List.Sublist (cacheIds (applyOp s (.del id resResp delResp)))
        (cacheIds s) := by
      cases resResp with
      | error e =>
        have h : cacheIds (applyOp s (.del id (.error e) delResp)) = cacheIds s := by
          simp [applyOp, deleteEstablishment, cacheIds]
        rw [h]
      | ok reservations =>
        by_cases hlen : 0 < (reservations.getD []).length
        · have h : cacheIds (applyOp s (.del id (.ok reservations) delResp)) =
              cacheIds s := by
            simp [applyOp, deleteEstablishment, hlen, cacheIds]
          rw [h]
        · cases delResp with
          | error e =>
            have h : cacheIds (applyOp s (.del id (.ok reservations) (.error e))) =
                cacheIds s := by
              simp [applyOp, deleteEstablishment, hlen, cacheIds]
            rw [h]
          | ok u =>
            have h : cacheIds (applyOp s (.del id (.ok reservations) (.ok u))) =
                (s.establishments.filter (fun est => decide (est.id ≠ id))).map Hotel.id := by
              simp [applyOp, deleteEstablishment, hlen, cacheIds]
            rw [h]
            exact (List.filter_sublist _).map Hotel.id
    exact List.Nodup.sublist hsub hs

/-- Counterexample for C5: two successive create calls whose gateway
responses carry the same assigned id leave the cache with a duplicated
id — the source appends the returned record blindly, so uniqueness cannot
hold for arbitrary response sequences. -/
theorem claim_C5_counterexample :
    ¬ (cacheIds (runOps initState
        [Op.create fd0 (.ok hA), Op.create fd0 (.ok hA)])).Nodup := by
  decide

/-- Claim C5 as amended: starting from a cache with pairwise-distinct ids,
any sequence of create/update/delete/refresh operations preserves id
uniqueness provided the gateway responses are sound — each refreshed list
is id-duplicate-free, each successful create returns a fresh id, and each
successful update returns a record with the requested id. -/
theorem claim_C5 (ops : List Op) (s : HookState)
    (hs : (cacheIds s).Nodup) (hrun : goodRun s ops) :
    (cacheIds (runOps s ops)).Nodup := by
  induction ops generalizing s with
  | nil => simpa [runOps] using hs
  | cons op rest ih =>
    obtain ⟨hop, hrest⟩ := hrun
    have hstep := applyOp_nodup hs hop
    simpa [runOps, List.foldl_cons] using ih (applyOp s op) hstep hrest

/-- Witness for C5: one create with a fresh id on the empty initial cache. -/
theorem claim_C5_witness :
    (cacheIds (runOps initState [Op.create fd0 (.ok hA)])).Nodup :=
  claim_C5 [Op.create fd0 (.ok hA)] initState (by decide)
    ⟨(by decide : hA.id ∉ cacheIds initState), trivial⟩

end UseEstablishments
